import Mathlib

/-!
Verification of the Anthony's Musings web frontend (static SPA client).

Shallow embedding of the client's rendering layer (`main.js`,
`components/contentCard.js`, `components/contentViewer.js`), the API
client's retry loop (`api.js`), the quick-search debounce handler, the
tag-cloud response normalization, and the health/connection probes.

JavaScript strings are modelled as Lean `String` (a sequence of `Char`);
`substring`, `trim`, `split`, `toUpperCase` are modelled by the
corresponding `String` operations.  DOM insertion is modelled by the HTML
markup string that the code assigns to `innerHTML`; template-literal
whitespace/indentation is not reproduced (it has no bearing on any claim).
-/

namespace Musings

/-- A tag record as delivered by the API (`{id, name, type, count}`);
only `name` is used by the rendering code. -/
structure Tag where
  id : Nat
  name : String
  ttype : String
deriving Repr, DecidableEq

/-- A content item (writing) as delivered by the API and consumed by the
rendering layer: the fields actually read by `createContentCard`,
`displayContent` and `openContent` in `main.js`. -/
structure Item where
  id : Nat
  title : String
  content : String
  content_type : String
  word_count : Nat
  explicit_content : Bool
  publication_status : String
  file_timestamp : String
  tags : List Tag
deriving Repr, DecidableEq

/-- Modelled from the DOM API used by `escapeHtml` (`div.textContent = text;
return div.innerHTML`): serializing a text node escapes the markup-significant
characters ampersand, less-than and greater-than; all other characters pass
through unchanged. -/
def escapeChar (c : Char) : String :=
  if c = '&' then "&amp;"
  else if c = '<' then "&lt;"
  else if c = '>' then "&gt;"
  else String.singleton c

/-- JS `array.map(f).join('')`: concatenation of `f` over a list. -/
def joinMap (f : α → String) : List α → String
  | [] => ""
  | a :: as => f a ++ joinMap f as

/-- JS `array.join(sep)`. -/
def joinSep (sep : String) : List String → String
  | [] => ""
  | [a] => a
  | a :: as => a ++ sep ++ joinSep sep as

/-- `MusingsApp.escapeHtml` (main.js:616-620): text-node round-trip escaping,
applied character by character over the string. -/
def escapeHtml (s : String) : String :=
  joinMap escapeChar s.data

/-- JS `String.prototype.trim`: strip leading and trailing whitespace from
the character sequence. -/
def jsTrim (s : String) : String :=
  String.mk (((s.data.dropWhile Char.isWhitespace).reverse.dropWhile
    Char.isWhitespace).reverse)

/-- `MusingsApp.formatDate` (main.js:607-614) parses the ISO timestamp with the
browser `Date` and renders it with `toLocaleDateString`.  Locale-aware date
formatting is browser functionality outside the embedding; it is modelled as
the identity on the timestamp string.  No claim constrains its output; it only
occurs as an opaque non-user-content slot in the markup. -/
def formatDate (s : String) : String := s

/-- The excerpt computation of `createContentCard` (main.js:317) and
`ContentCard.create` (contentCard.js:9), on the character sequence:
`item.content.substring(0, 150) + (item.content.length > 150 ? '...' : '')`. -/
def excerptChars (content : List Char) : List Char :=
  content.take 150 ++ (if 150 < content.length then "...".data else [])

/-- String-level wrapper of `excerptChars`. -/
def excerptOf (content : String) : String :=
  String.mk (excerptChars content.data)

/-- One tag chip of a card (main.js:330). -/
def tagChip (t : Tag) : String :=
  "<span class=\"tag\">" ++ escapeHtml t.name ++ "</span>"

/-- `MusingsApp.createContentCard` (main.js:312-334): the innerHTML assigned to
the card element.  In the source the tags block is guarded by `item.tags ?`;
`tags` is always an array in the data model and arrays are truthy in JS, so
the block is always emitted. -/
def createContentCard (item : Item) : String :=
  "<div class=\"card-header\">" ++
  "<h3 class=\"card-title\">" ++ escapeHtml item.title ++ "</h3>" ++
  "<div class=\"card-meta\">" ++
  "<span class=\"content-type\">" ++ item.content_type.toUpper ++ "</span>" ++
  (if item.explicit_content then "<span class=\"explicit-badge\">18+</span>" else "") ++
  "<span>" ++ toString item.word_count ++ " words</span>" ++
  "<span>" ++ formatDate item.file_timestamp ++ "</span>" ++
  "</div>" ++
  "</div>" ++
  "<div class=\"card-excerpt\">" ++ escapeHtml (excerptOf item.content) ++ "</div>" ++
  "<div class=\"card-tags\">" ++ joinMap tagChip item.tags ++ "</div>"

/-- `MusingsApp.formatContentForDisplay` (main.js:365-386) and the identical
`ContentViewer.formatContentForDisplay` (contentViewer.js:22-43): body
formatting switched on the content type.  JS truthiness of `line.trim()` is
emptiness of the trimmed line. -/
def formatContentForDisplay (content ctype : String) : String :=
  if ctype = "poetry" then
    joinMap (fun line =>
      if jsTrim line ≠ "" then "<p>" ++ escapeHtml line ++ "</p>" else "<p>&nbsp;</p>")
      (content.splitOn "\n")
  else if ctype = "dialogue" then
    joinMap (fun paragraph => "<p>" ++ escapeHtml paragraph ++ "</p>")
      (content.splitOn "\n\n")
  else
    joinMap (fun paragraph => "<p>" ++ escapeHtml (jsTrim paragraph) ++ "</p>")
      (content.splitOn "\n\n")

/-- `MusingsApp.displayContent` / `ContentViewer.display`
(main.js:346-363, contentViewer.js:5-20): the innerHTML assigned to the
full-view container. -/
def fullViewHtml (item : Item) : String :=
  "<h1 class=\"content-title\">" ++ escapeHtml item.title ++ "</h1>" ++
  "<div class=\"content-meta\">" ++
  "<span>" ++ item.content_type.toUpper ++ " • " ++ toString item.word_count ++
  " words • " ++ formatDate item.file_timestamp ++ "</span><br>" ++
  (if item.tags.length > 0 then
    "<span>Tags: " ++ joinSep ", " (item.tags.map Tag.name) ++ "</span>"
  else "") ++
  "</div>" ++
  "<div class=\"content-text\">" ++ formatContentForDisplay item.content item.content_type ++ "</div>"

/-- `MusingsApp.displayRecentContent` (main.js:296-310): the dashboard recent
grid.  Each item is rendered as a card unless the gate is off and the item is
explicit (`if (!this.explicitContentEnabled && item.explicit_content) return;`). -/
def displayRecentContent (gate : Bool) (items : List Item) : List String :=
  items.filterMap (fun item =>
    if !gate && item.explicit_content then none
    else some (createContentCard item))

/-- `MusingsApp.displayBrowseContent` (main.js:559-569): the browse grid.
Every item of the response is rendered as a card; there is no gate check in
this function (the gate only shapes the `explicit` query parameter of the
request in `loadBrowseContent`). -/
def displayBrowseContent (items : List Item) : List String :=
  items.map createContentCard

/-- The mutable `MusingsApp` fields relevant to navigation, gating and the
content viewer (main.js:4-9). -/
structure AppState where
  currentPage : String
  explicitContentEnabled : Bool
  currentContent : Option Item
deriving Repr, DecidableEq

/-- `MusingsApp.displayContent` (main.js:346-363) seen as a state step: it
navigates to the content-viewer page and produces the full-view markup. -/
def displayContentStep (st : AppState) (item : Item) : AppState × String :=
  ({ st with currentPage := "content-viewer" }, fullViewHtml item)

/-- Outcome of opening a content item. -/
inductive OpenOutcome
  | showWarning
  | rendered (html : String)
deriving Repr, DecidableEq

/-- `MusingsApp.openContent` (main.js:336-344): an explicit item while the
gate is off stores the item and shows the content-warning modal; otherwise
the item's full view is displayed. -/
def openContent (st : AppState) (item : Item) : AppState × OpenOutcome :=
  if item.explicit_content && !st.explicitContentEnabled then
    ({ st with currentContent := some item }, OpenOutcome.showWarning)
  else
    let p := displayContentStep st item
    (p.1, OpenOutcome.rendered p.2)

/-- The `confirmAge` click handler (main.js:100-107): hides the warning modal
and, when a current content item is stored, displays it. -/
def confirmAgeHandler (st : AppState) : AppState × Option String :=
  match st.currentContent with
  | some item =>
    let p := displayContentStep st item
    (p.1, some p.2)
  | none => (st, none)

/-- Occurrences of the markup-opening character in a string. -/
def countLt (s : String) : Nat := s.data.count '<'

/-- Substring test on the character sequences. -/
def containsSub (s pat : String) : Bool := decide (pat.data <:+: s.data)

/-- Outcome of one attempt inside `APIClient.makeRequest` (api.js:36-73):
either the fetch resolves, parses, and yields data (`ok`), or the attempt
throws (network error, abort on timeout, or the thrown `APIError` for a
non-2xx response) (`err`). -/
inductive AttemptResult (E A : Type) where
  | ok (a : A)
  | err (e : E)
deriving Repr, DecidableEq

/-- `this.retryDelay` (api.js:9). -/
def retryDelayMs : Nat := 1000

/-- `this.retryAttempts` (api.js:8). -/
def numRetryAttempts : Nat := 3

/-- The `for (let attempt = 1; attempt <= this.retryAttempts; attempt++)` loop
of `APIClient.makeRequest` (api.js:36-73).  `results n` is the outcome of
attempt number `n`; `fuel` is the number of attempts still allowed after the
current one.  The second component records, in order, the argument of each
`await this.delay(this.retryDelay * attempt)` executed between attempts. -/
def makeRequestAux {E A : Type} (results : Nat → AttemptResult E A) :
    Nat → Nat → Except E A × List Nat
  | attempt, fuel =>
    match results attempt with
    | AttemptResult.ok a => (Except.ok a, [])
    | AttemptResult.err e =>
      match fuel with
      | 0 => (Except.error e, [])
      | n + 1 =>
        let p := makeRequestAux results (attempt + 1) n
        (p.1, retryDelayMs * attempt :: p.2)

/-- `APIClient.makeRequest` for a given sequence of attempt outcomes:
attempts are numbered from 1 and at most `numRetryAttempts = 3` are made. -/
def makeRequest {E A : Type} (results : Nat → AttemptResult E A) :
    Except E A × List Nat :=
  makeRequestAux results 1 (numRetryAttempts - 1)

/-- The pending `setTimeout` handle stored in `this.searchTimeout`
(main.js:142-148): its delay and the captured (already trimmed) query. -/
structure PendingTimer where
  delayMs : Nat
  query : String
deriving Repr, DecidableEq

/-- The quick-search controller state: the pending debounce timer, if any. -/
structure SearchUIState where
  searchTimeout : Option PendingTimer
deriving Repr, DecidableEq

/-- Observable effects of the quick-search handler. -/
inductive SearchEffect where
  | clearPending
  | networkSearch (q : String)
  | hideResults
deriving Repr, DecidableEq

/-- The `input` listener of `initSearchBar` (main.js:133-149): trim the field
value, clear the pending timer if there is one, and schedule a fresh 300 ms
timer capturing the trimmed query.  The returned effect list holds the
effects performed immediately, at keystroke time. -/
def onSearchInput (st : SearchUIState) (rawValue : String) :
    SearchUIState × List SearchEffect :=
  let query := jsTrim rawValue
  let effs := match st.searchTimeout with
    | some _ => [SearchEffect.clearPending]
    | none => []
  (⟨some ⟨300, query⟩⟩, effs)

/-- The debounce timer callback (main.js:142-148): when the timer fires, a
query of trimmed length at least 2 triggers `performSearch` (a network call);
a shorter query hides the quick-search results. -/
def fireSearchTimer (t : PendingTimer) : List SearchEffect :=
  if 2 ≤ t.query.length then [SearchEffect.networkSearch t.query]
  else [SearchEffect.hideResults]

/-- A JS value as scrutinised by `loadTagCloud` (main.js:408-423): the
response is either a bare array of tags, an object carrying a `tags` array,
or something else; a missing property reads as `undefined`. -/
inductive JVal where
  | arr (ts : List Tag)
  | obj (ts : List Tag)
  | undef
deriving Repr, DecidableEq

/-- Property access `response.tags`: an object's `tags` field holds the
array; arrays and `undefined` have no `tags` property. -/
def dotTags : JVal → JVal
  | JVal.obj ts => JVal.arr ts
  | _ => JVal.undef

/-- JS truthiness for the values above: `undefined` is falsy; arrays and
objects are truthy (even when empty). -/
def truthy : JVal → Bool
  | JVal.undef => false
  | _ => true

/-- JS `a || b`. -/
def jsOr (a b : JVal) : JVal := if truthy a then a else b

/-- One chip of the tag cloud (main.js:417). -/
def tagChipCloud (t : Tag) : String :=
  "<span class=\"tag\" data-tag=\"" ++ escapeHtml t.name ++ "\">" ++
  escapeHtml t.name ++ "</span>"

/-- `MusingsApp.loadTagCloud` (main.js:408-423) after the response resolved:
`const tags = response.tags || response;` then, when `Array.isArray(tags)`,
the first 12 tags are rendered (`tags.slice(0, 12)`); otherwise the tag
cloud is left untouched (`none`). -/
def loadTagCloud (response : JVal) : Option String :=
  match jsOr (dotTags response) response with
  | JVal.arr ts => some (joinMap tagChipCloud (ts.take 12))
  | _ => none

/-- Outcome of the raw `fetch('/health')` inside `APIClient.healthCheck`
(api.js:275-283): the fetch resolves with an ok / non-ok status, or rejects
with a network error. -/
inductive FetchOutcome where
  | success (ok : Bool)
  | netError (msg : String)
deriving Repr, DecidableEq

/-- `APIClient.healthCheck` (api.js:275-283): returns `response.ok` on a
resolved fetch; the catch branch logs and returns `false`.  The `Except`
result type records whether the method itself can reject. -/
def healthCheck (o : FetchOutcome) : Except String Bool :=
  match o with
  | FetchOutcome.success ok => Except.ok ok
  | FetchOutcome.netError _ => Except.ok false

/-- The object resolved by `APIClient.getConnectionStatus` (api.js:288-302),
without the timestamp (wall-clock time is outside the embedding). -/
structure ConnStatus where
  status : String
  error : Option String
deriving Repr, DecidableEq

/-- `APIClient.getConnectionStatus` (api.js:288-302): awaits `healthCheck`
(discarding its boolean result) and returns status `'online'`; the catch
branch would return status `'offline'` carrying the error message. -/
def getConnectionStatus (o : FetchOutcome) : ConnStatus :=
  match healthCheck o with
  | Except.ok _ => { status := "online", error := none }
  | Except.error e => { status := "offline", error := some e }

/-- Modelled from the spec's words (for the refinement claim on body
formatting): poetry is split on single newlines; each non-blank line is
wrapped as its own paragraph; blank lines are rendered as a
non-breaking-space paragraph. -/
def specPoetryFormat (content : String) : String :=
  joinMap (fun line =>
    if jsTrim line = "" then "<p>&nbsp;</p>"
    else "<p>" ++ escapeHtml line ++ "</p>")
    (content.splitOn "\n")

/-- Modelled from the spec's words: dialogue is split on blank-line-delimited
paragraphs (double newline), each wrapped as a paragraph, no trimming. -/
def specDialogueFormat (content : String) : String :=
  joinMap (fun paragraph => "<p>" ++ escapeHtml paragraph ++ "</p>")
    (content.splitOn "\n\n")

/-- Modelled from the spec's words: all other types are split on double
newlines, each paragraph trimmed then wrapped. -/
def specDefaultFormat (content : String) : String :=
  joinMap (fun paragraph => "<p>" ++ escapeHtml (jsTrim paragraph) ++ "</p>")
    (content.splitOn "\n\n")

/-- An explicit content item, as the browse view may receive one in an API
response (e.g. the mock item `Midnight Conversations` in api.js:354-371). -/
def itemBrowseEx : Item :=
  { id := 2, title := "Midnight Conversations", content := "x",
    content_type := "dialogue", word_count := 192, explicit_content := true,
    publication_status := "ready", file_timestamp := "2025-05-27T22:45:00Z",
    tags := [] }

/-- A content item carrying markup inside a tag name. -/
def itemTagMarkup : Item :=
  { id := 9, title := "T", content := "c", content_type := "prose",
    word_count := 1, explicit_content := false, publication_status := "draft",
    file_timestamp := "d", tags := [{ id := 1, name := "<b>", ttype := "theme" }] }

/-- A body of 151 identical characters (length just over the 150-character
truncation threshold). -/
def body151 : String := String.mk (List.replicate 151 'a')

/-- Attempt outcomes where attempts 1 and 2 fail and attempt 3 succeeds. -/
def resultsRecover : Nat → AttemptResult String Nat :=
  fun n => if n = 3 then AttemptResult.ok 7 else AttemptResult.err "network down"

/-- Attempt outcomes where every attempt fails. -/
def resultsAllFail : Nat → AttemptResult String Nat :=
  fun _ => AttemptResult.err "boom"

lemma countLt_append (s t : String) : countLt (s ++ t) = countLt s + countLt t := by
  simp [countLt, String.data_append, List.count_append]

lemma countLt_joinMap {α : Type} (f : α → String) (l : List α) :
    countLt (joinMap f l) = (l.map (fun a => countLt (f a))).sum := by
  induction l with
  | nil => simp [joinMap, countLt]
  | cons a as ih => simp [joinMap, countLt_append, ih]

lemma countLt_escapeChar (c : Char) : countLt (escapeChar c) = 0 := by
  unfold escapeChar
  by_cases h1 : c = '&'
  · simp [h1]; decide
  · by_cases h2 : c = '<'
    · simp [h1, h2]; decide
    · by_cases h3 : c = '>'
      · simp [h1, h2, h3]; decide
      · simp [h1, h2, h3, countLt, String.singleton, List.count_cons, h2]

lemma countLt_escapeHtml (s : String) : countLt (escapeHtml s) = 0 := by
  unfold escapeHtml
  rw [countLt_joinMap]
  simp [countLt_escapeChar]

lemma countLt_tagChip (t : Tag) : countLt (tagChip t) = 2 := by
  unfold tagChip
  rw [countLt_append, countLt_append, countLt_escapeHtml]
  decide

lemma countLt_tagChips (ts : List Tag) :
    countLt (joinMap tagChip ts) = 2 * ts.length := by
  induction ts with
  | nil => simp [joinMap, countLt]
  | cons t ts ih =>
    simp [joinMap, countLt_append, countLt_tagChip, ih]
    ring

lemma joinMap_congr {α : Type} (f g : α → String) (l : List α)
    (h : ∀ a ∈ l, f a = g a) : joinMap f l = joinMap g l := by
  induction l with
  | nil => rfl
  | cons a as ih =>
    have hrest := ih (fun a ha => h a (by simp [ha]))
    simp [joinMap, h a (by simp), hrest]

lemma displayRecentContent_eq_filter (gate : Bool) (items : List Item) :
    displayRecentContent gate items
      = ((items.filter (fun i => gate || !i.explicit_content)).map createContentCard) := by
  induction items with
  | nil => rfl
  | cons a as ih =>
    cases gate <;> by_cases he : a.explicit_content <;>
      simp [displayRecentContent, List.filterMap_cons, List.filter_cons, he] <;>
      simpa [displayRecentContent] using ih

/-- C1 (counterexample): an `explicit_content = true` item handed to the
browse-grid renderer is rendered as a card.  `displayBrowseContent` does not
consult the gate at all, so this holds in particular while the gate is off
and without any per-item confirmation — contradicting the claim that no card
of such an item is rendered into any gated view under those conditions. -/
theorem explicit_gating_cex :
    itemBrowseEx.explicit_content = true ∧
    displayBrowseContent [itemBrowseEx] = [createContentCard itemBrowseEx] :=
  ⟨rfl, rfl⟩

/-- C1 (amended): only the dashboard recent-items view filters explicit items
client-side (its output is unchanged by removing the explicit items when the
gate is off, and it renders every item when the gate is on); the browse grid
renders every item of its input regardless of the gate; opening an explicit
item's full view while the gate is off shows the content-warning modal
(storing the item) instead of rendering, while with the gate on it renders
at once; and the confirm handler renders the stored item. -/
theorem explicit_gating_amended (gate : Bool) (items : List Item) (item : Item)
    (st : AppState) :
    displayRecentContent gate items
      = displayRecentContent gate (items.filter (fun i => gate || !i.explicit_content)) ∧
    displayRecentContent true items = items.map createContentCard ∧
    (item ∈ items → createContentCard item ∈ displayBrowseContent items) ∧
    (item.explicit_content = true → st.explicitContentEnabled = false →
      (openContent st item).2 = OpenOutcome.showWarning ∧
      (openContent st item).1.currentContent = some item) ∧
    (st.explicitContentEnabled = true →
      (openContent st item).2 = OpenOutcome.rendered (fullViewHtml item)) ∧
    (st.currentContent = some item →
      (confirmAgeHandler st).2 = some (fullViewHtml item)) := by
  refine ⟨?_, ?_, ?_, ?_, ?_, ?_⟩
  · rw [displayRecentContent_eq_filter, displayRecentContent_eq_filter,
      List.filter_filter]
    simp
  · rw [displayRecentContent_eq_filter]
    simp
  · intro hmem
    exact List.mem_map_of_mem createContentCard hmem
  · intro hex hoff
    simp [openContent, hex, hoff]
  · intro hon
    simp [openContent, hon, displayContentStep]
  · intro hcur
    simp [confirmAgeHandler, hcur, displayContentStep]

/-- C1 (witness for the amended theorem): opening the explicit item
`itemBrowseEx` with the gate off shows the warning modal and stores the item. -/
theorem explicit_gating_witness :
    (openContent ⟨"browse", false, none⟩ itemBrowseEx).2 = OpenOutcome.showWarning ∧
    (openContent ⟨"browse", false, none⟩ itemBrowseEx).1.currentContent
      = some itemBrowseEx :=
  (explicit_gating_amended false [] itemBrowseEx ⟨"browse", false, none⟩).2.2.2.1 rfl rfl

/-- C2 (confirmed): if attempts 1 and 2 fail and attempt 3 succeeds, the call
resolves with attempt 3's response; if all three attempts fail, it rejects
with exactly the error of attempt 3; and the result of `makeRequest` depends
only on the outcomes of attempts 1-3, so no 4th attempt is ever consulted. -/
theorem retry_budget {E A : Type} (results : Nat → AttemptResult E A) :
    (∀ (e1 e2 : E) (a : A), results 1 = AttemptResult.err e1 →
      results 2 = AttemptResult.err e2 → results 3 = AttemptResult.ok a →
      (makeRequest results).1 = Except.ok a) ∧
    (∀ e1 e2 e3 : E, results 1 = AttemptResult.err e1 →
      results 2 = AttemptResult.err e2 → results 3 = AttemptResult.err e3 →
      (makeRequest results).1 = Except.error e3) ∧
    (∀ results' : Nat → AttemptResult E A,
      (∀ n, 1 ≤ n → n ≤ 3 → results n = results' n) →
      makeRequest results = makeRequest results') := by
  refine ⟨?_, ?_, ?_⟩
  · intro e1 e2 a h1 h2 h3
    simp [makeRequest, numRetryAttempts, makeRequestAux, h1, h2, h3]
  · intro e1 e2 e3 h1 h2 h3
    simp [makeRequest, numRetryAttempts, makeRequestAux, h1, h2, h3]
  · intro results' h
    have h1 := h 1 (by norm_num) (by norm_num)
    have h2 := h 2 (by norm_num) (by norm_num)
    have h3 := h 3 (by norm_num) (by norm_num)
    show makeRequestAux results 1 2 = makeRequestAux results' 1 2
    simp only [makeRequestAux]
    rw [h1, h2, h3]

/-- C2 (witness): with attempts 1 and 2 failing and attempt 3 returning `7`,
the call resolves with `7`. -/
theorem retry_budget_witness : (makeRequest resultsRecover).1 = Except.ok 7 :=
  (retry_budget resultsRecover).1 "network down" "network down" 7 rfl rfl rfl

/-- C5 (confirmed): the retry backoff is linear in the retry number.  The
delay list records the arguments of `delay(retryDelay * attempt)` in order:
no delay when attempt 1 succeeds; the delay waited before the first retry
(attempt 2) is `retryDelay * 1`; before the second retry (attempt 3) it is
`retryDelay * 2` — i.e. the delay before the n-th retry within the 3-attempt
budget is `baseDelay * n`, not exponential. -/
theorem retry_backoff_linear {E A : Type} (results : Nat → AttemptResult E A) :
    (∀ a : A, results 1 = AttemptResult.ok a → (makeRequest results).2 = []) ∧
    (∀ (e1 : E) (a : A), results 1 = AttemptResult.err e1 →
      results 2 = AttemptResult.ok a →
      (makeRequest results).2 = [retryDelayMs * 1]) ∧
    (∀ e1 e2 : E, results 1 = AttemptResult.err e1 →
      results 2 = AttemptResult.err e2 →
      (makeRequest results).2 = [retryDelayMs * 1, retryDelayMs * 2]) := by
  refine ⟨?_, ?_, ?_⟩
  · intro a h1
    simp [makeRequest, numRetryAttempts, makeRequestAux, h1]
  · intro e1 a h1 h2
    simp [makeRequest, numRetryAttempts, makeRequestAux, h1, h2]
  · intro e1 e2 h1 h2
    cases h3 : results 3 <;>
      simp [makeRequest, numRetryAttempts, makeRequestAux, h1, h2, h3]

/-- C5 (witness): with every attempt failing, the recorded delays are
`[1000 * 1, 1000 * 2]`. -/
theorem retry_backoff_linear_witness :
    (makeRequest resultsAllFail).2 = [retryDelayMs * 1, retryDelayMs * 2] :=
  (retry_backoff_linear resultsAllFail).2.2 "boom" "boom" rfl rfl

lemma infixData_append_left {x : List Char} {a : String} (b : String)
    (h : x <:+: a.data) : x <:+: (a ++ b).data := by
  obtain ⟨u, v, huv⟩ := h
  exact ⟨u, v ++ b.data, by rw [String.data_append, ← huv]; simp⟩

lemma infixData_append_right {x : List Char} (a : String) {b : String}
    (h : x <:+: b.data) : x <:+: (a ++ b).data := by
  obtain ⟨u, v, huv⟩ := h
  exact ⟨a.data ++ u, v, by rw [String.data_append, ← huv]; simp⟩

/-- C3 (counterexample): tag names are NOT escaped everywhere.  The metadata
line of the full view (`Tags: ${item.tags.map(tag => tag.name).join(', ')}`,
main.js:359 and contentViewer.js:17) inserts the raw tag name: for an item
with a tag named `<b>`, the rendered full-view fragment contains the raw
markup `Tags: <b>` originating from item data, where escaping (which would
have produced `&lt;b&gt;`) was claimed. -/
theorem escaping_cex :
    containsSub (fullViewHtml itemTagMarkup) "Tags: <b>" = true ∧
    escapeHtml "<b>" = "&lt;b&gt;" := by
  refine ⟨?_, by decide⟩
  simp only [containsSub, decide_eq_true_eq]
  unfold fullViewHtml
  apply infixData_append_left
  apply infixData_append_left
  apply infixData_append_left
  apply infixData_append_left
  apply infixData_append_right
  rw [if_pos (by decide : itemTagMarkup.tags.length > 0)]
  decide

/-- C3 (amended): the card renderer escapes every user-text slot it fills
(title, excerpt, tag-chip names), so the only `<` characters of a rendered
card are the 16 fixed template tags, the 2 explicit-badge tags when the item
is explicit, the 2 tags of each tag chip, plus whatever `<` occur in the
non-escaped `content_type`, word-count and timestamp slots; the full-view
metadata line, by contrast, inserts tag names unescaped (see the
counterexample), and `escapeHtml` output never contains `<`. -/
theorem escaping_amended (item : Item) :
    countLt (createContentCard item) =
      16 + (if item.explicit_content then 2 else 0) + 2 * item.tags.length
        + countLt item.content_type.toUpper + countLt (toString item.word_count)
        + countLt (formatDate item.file_timestamp) ∧
    (∀ s : String, countLt (escapeHtml s) = 0) := by
  constructor
  · have hA : countLt "<div class=\"card-header\">" = 1 := by decide
    have hB : countLt "<h3 class=\"card-title\">" = 1 := by decide
    have hC : countLt "</h3>" = 1 := by decide
    have hD : countLt "<div class=\"card-meta\">" = 1 := by decide
    have hE : countLt "<span class=\"content-type\">" = 1 := by decide
    have hF : countLt "</span>" = 1 := by decide
    have hG : countLt "<span class=\"explicit-badge\">18+</span>" = 2 := by decide
    have hH : countLt "<span>" = 1 := by decide
    have hI : countLt " words</span>" = 1 := by decide
    have hJ : countLt "</div>" = 1 := by decide
    have hK : countLt "<div class=\"card-excerpt\">" = 1 := by decide
    have hL : countLt "<div class=\"card-tags\">" = 1 := by decide
    have hM : countLt "" = 0 := by decide
    rw [createContentCard]
    cases hx : item.explicit_content <;>
      simp only [hx, if_true, if_false, Bool.false_eq_true, countLt_append,
        countLt_escapeHtml, countLt_tagChips, hA, hB, hC, hD, hE, hF, hG, hH,
        hI, hJ, hK, hL, hM] <;>
      omega
  · exact countLt_escapeHtml

set_option maxRecDepth 20000 in
/-- C4 (counterexample): for a 151-character body the excerpt is the first
150 characters with `...` appended, which is not a prefix of the original
body — refuting the conjunct `excerpt is a prefix of the original body` of
the claim at this input. -/
theorem truncation_cex :
    150 < body151.length ∧ ¬ ((excerptOf body151).data <+: body151.data) := by
  constructor <;> decide

/-- C4 (amended): the excerpt has length at most 153; its first 150
characters are a prefix of the original body; the ellipsis is appended
exactly when the body length exceeds 150 (in which case the excerpt is the
first 150 characters followed by `...`); and for bodies of at most 150
characters the excerpt equals the body (so in particular it is then a
prefix of it). -/
theorem truncation_amended (s : String) :
    (excerptOf s).length ≤ 153 ∧
    ((excerptOf s).data.take 150 <+: s.data) ∧
    (150 < s.length → (excerptOf s).data = s.data.take 150 ++ "...".data) ∧
    (s.length ≤ 150 → excerptOf s = s) := by
  have hdata : (excerptOf s).data = excerptChars s.data := rfl
  have hlen : s.length = s.data.length := rfl
  refine ⟨?_, ?_, ?_, ?_⟩
  · show (excerptChars s.data).length ≤ 153
    rw [excerptChars]
    split <;> simp [List.length_append, List.length_take]
  · rw [hdata, excerptChars]
    split
    · rw [List.take_append_eq_append_take]
      have h150 : (s.data.take 150).length = 150 := by
        rw [List.length_take]
        omega
      rw [ List.take_of_length_le (le_of_eq h150), h150]
      simp [ List.take_prefix]
    · simp [List.take_take]
      exact List.take_prefix 150 s.data
  · intro h
    rw [hdata, excerptChars, if_pos (by omega : 150 < s.data.length)]
  · intro h
    apply String.ext
    rw [hdata, excerptChars, if_neg (by omega : ¬ 150 < s.data.length)]
    simp [ List.take_of_length_le (by omega : s.data.length ≤ 150)]

/-- C4 (witness for the amended theorem): a body of at most 150 characters
is its own excerpt. -/
theorem truncation_witness : excerptOf "ab" = "ab" :=
  (truncation_amended "ab").2.2.2 (by decide)

/-- C6 (confirmed): the source's content-type-dependent body formatting
refines the specified one — for `poetry` the body is split on single
newlines with non-blank lines wrapped as paragraphs and blank lines as
non-breaking-space paragraphs; for `dialogue` it is split on double
newlines with untrimmed paragraphs; for every other content type it is
split on double newlines with each paragraph trimmed then wrapped. -/
theorem body_formatting (content : String) :
    formatContentForDisplay content "poetry" = specPoetryFormat content ∧
    formatContentForDisplay content "dialogue" = specDialogueFormat content ∧
    (∀ t : String, t ≠ "poetry" → t ≠ "dialogue" →
      formatContentForDisplay content t = specDefaultFormat content) := by
  refine ⟨?_, ?_, ?_⟩
  · rw [formatContentForDisplay, if_pos rfl, specPoetryFormat]
    apply joinMap_congr
    intro line _
    by_cases h : jsTrim line = "" <;> simp [h]
  · rw [formatContentForDisplay, if_neg (by decide), if_pos rfl,
      specDialogueFormat]
  · intro t h1 h2
    rw [formatContentForDisplay, if_neg h1, if_neg h2, specDefaultFormat]

/-- C6 (witness): for the default branch at the concrete type `prose`. -/
theorem body_formatting_witness :
    formatContentForDisplay "a" "prose" = specDefaultFormat "a" :=
  (body_formatting "a").2.2 "prose" (by decide) (by decide)

/-- C7 (confirmed): the tag-cloud consumer normalizes a bare-array response
and an object-wrapped `{tags: [...]}` response carrying the same tag list to
the same rendered result, and that result is rendered (not skipped). -/
theorem tags_shape_normalization (ts : List Tag) :
    loadTagCloud (JVal.arr ts) = loadTagCloud (JVal.obj ts) ∧
    (loadTagCloud (JVal.arr ts)).isSome = true := by
  constructor <;> simp [loadTagCloud, dotTags, jsOr, truthy]

/-- C8 (counterexample): a keystroke whose trimmed query is shorter than 2
characters does NOT clear the quick-search results immediately: the input
handler's immediate effects are empty (no pending timer to cancel, no hide,
no network call); the hiding happens only when the 300 ms debounce timer
later fires — refuting the claim's `clears the quick-search results
immediately`. -/
theorem debounce_cex :
    (jsTrim "a").length < 2 ∧
    (onSearchInput ⟨none⟩ "a").2 = [] ∧
    SearchEffect.hideResults ∉ (onSearchInput ⟨none⟩ "a").2 ∧
    fireSearchTimer ⟨300, jsTrim "a"⟩ = [SearchEffect.hideResults] := by
  refine ⟨?_, rfl, ?_, ?_⟩ <;> decide

/-- C8 (amended): each keystroke cancels the pending debounce timer (when one
exists) and schedules a fresh 300 ms timer capturing the trimmed query; no
network call is made at keystroke time; when the timer fires, a query of
trimmed length at least 2 triggers exactly one network search for it, and a
shorter query clears the quick-search results at that point (300 ms after
the keystroke), not immediately. -/
theorem debounce_amended (st : SearchUIState) (raw : String) :
    (onSearchInput st raw).1 = ⟨some ⟨300, jsTrim raw⟩⟩ ∧
    (st.searchTimeout.isSome = true →
      (onSearchInput st raw).2 = [SearchEffect.clearPending]) ∧
    (st.searchTimeout = none → (onSearchInput st raw).2 = []) ∧
    (∀ q, SearchEffect.networkSearch q ∉ (onSearchInput st raw).2) ∧
    (∀ t : PendingTimer, 2 ≤ t.query.length →
      fireSearchTimer t = [SearchEffect.networkSearch t.query]) ∧
    (∀ t : PendingTimer, t.query.length < 2 →
      fireSearchTimer t = [SearchEffect.hideResults]) := by
  obtain ⟨pending⟩ := st
  refine ⟨rfl, ?_, ?_, ?_, ?_, ?_⟩
  · intro h
    cases pending with
    | none => simp at h
    | some t => simp [onSearchInput]
  · intro h
    simp at h
    simp [onSearchInput, h]
  · intro q
    cases pending <;> simp [onSearchInput]
  · intro t h
    simp [fireSearchTimer, h]
  · intro t h
    rw [fireSearchTimer, if_neg (by omega)]

/-- C8 (witness for the amended theorem): a keystroke arriving while a timer
is pending cancels it. -/
theorem debounce_witness :
    (onSearchInput ⟨some ⟨300, "xy"⟩⟩ " love ").2 = [SearchEffect.clearPending] :=
  (debounce_amended ⟨some ⟨300, "xy"⟩⟩ " love ").2.1 rfl

/-- C9 (confirmed): rendering is idempotent under unchanged gate state —
displaying the same item a second time (from the state the first display
produced) yields the identical full-view markup and the identical state, the
display step never changes the gate, and the dashboard card rendering is a
function of gate and items alone, so repeating it after a display step
yields identical card markup. -/
theorem render_idempotent (st : AppState) (item : Item) (items : List Item) :
    (displayContentStep (displayContentStep st item).1 item).2
      = (displayContentStep st item).2 ∧
    (displayContentStep (displayContentStep st item).1 item).1
      = (displayContentStep st item).1 ∧
    (displayContentStep st item).1.explicitContentEnabled
      = st.explicitContentEnabled ∧
    displayRecentContent (displayContentStep st item).1.explicitContentEnabled items
      = displayRecentContent st.explicitContentEnabled items := by
  refine ⟨rfl, rfl, rfl, rfl⟩

/-- C10 (confirmed): `healthCheck` never rejects — every fetch outcome
resolves (`Except.ok`), with `true` exactly when the fetch succeeded with an
ok status; hence the catch branch of `getConnectionStatus` is unreachable
and it always resolves with status `online`. -/
theorem health_status (o : FetchOutcome) :
    (healthCheck o).isOk = true ∧
    (healthCheck o = Except.ok true ↔ o = FetchOutcome.success true) ∧
    getConnectionStatus o = { status := "online", error := none } := by
  cases o with
  | success ok => cases ok <;> simp [healthCheck, getConnectionStatus, Except.isOk, Except.toBool]
  | netError m => simp [healthCheck, getConnectionStatus, Except.isOk, Except.toBool]

/-- C10 (witness): even when the fetch rejects with a network error, the
connection status resolves as online. -/
theorem health_status_witness :
    getConnectionStatus (FetchOutcome.netError "refused")
      = { status := "online", error := none } :=
  (health_status (FetchOutcome.netError "refused")).2.2

end Musings
